import Mathlib

/-!
Verification of the data-transformation core of the Afghanistan events
dashboard (`dash_afg.py`): the dataset loader, the event cluster
aggregator, the time-series annotator and the weekly summary table
builder, embedded shallowly and checked against the specification.
-/

namespace AfgDemo

/-! ### Text wrapping (`add_br_to_description`, dash_afg.py lines 156-168)

The Python code first replaces every `/` by `<br><br>`, then applies the
global regex substitution `re.sub(r'(.{50}\S*)\s', r'\1<br> ', text)`.
`pyIsSpace` models `\s` (ASCII), `matchAt` a match of the pattern starting
at the head of the list (50 characters other than newline, then a maximal
run of non-space characters, then one space), and `subFuel` the scan of
`re.sub`: at each position try a match; on success emit the group and
`<br> ` in place of the consumed space and continue after the match,
otherwise move one character right. -/

def pyIsSpace (c : Char) : Bool :=
  c == ' ' || c == '\t' || c == '\n' || c == '\r' || c == '\x0b' || c == '\x0c'

def matchAt (l : List Char) : Option Nat :=
  let head := l.take 50
  if head.length == 50 && head.all (fun c => c != '\n') then
    let rest := l.drop 50
    let w := rest.takeWhile (fun c => !pyIsSpace c)
    match rest.drop w.length with
    | c :: _ => if pyIsSpace c then some (50 + w.length) else none
    | [] => none
  else none

def subFuel : Nat → List Char → List Char
  | 0, l => l
  | Nat.succ n, l =>
    match matchAt l with
    | some g => l.take g ++ "<br> ".data ++ subFuel n (l.drop (g + 1))
    | none =>
      match l with
      | [] => []
      | c :: t => c :: subFuel n t

def pySub (l : List Char) : List Char := subFuel l.length l

/-- Model of Python `str.replace` for a single-character pattern: every
occurrence of `c` is replaced by `rep`. -/
def pyReplaceChar (c : Char) (rep : List Char) : List Char → List Char
  | [] => []
  | x :: t => if x == c then rep ++ pyReplaceChar c rep t else x :: pyReplaceChar c rep t

def add_br_to_description (s : String) : String :=
  ⟨pySub (pyReplaceChar '/' "<br><br>".data s.data)⟩

/-- A 52-character description: 50 `a`s, a space and a `b`. -/
def wrapProbe : String := ⟨List.replicate 50 'a' ++ [' ', 'b']⟩

/-! ### Data model (dash_afg.py lines 24-41 and the spec's section 3)

An `EventRecord` is one row of the per-event log `data/Afg.csv`; its
`event_date` stays the raw string read from the file (the module-level
load at line 29 applies no date parsing to `event_data`).  An
`IndicatorRow` is one row of the weekly indicator table `data/Afghanistan.csv`
after its `event_date` column was parsed (line 25); dates are encoded as
`y * 10000 + m * 100 + d`, which orders valid dates chronologically.  A
row's cells are a total function from column name to numeric value, and
the table keeps the column order of the frame. -/

structure EventRecord where
  event_date : String
  latitude : ℚ
  longitude : ℚ
  event_type : String
  sub_event_type : String
  actor1 : String
  fatalities : ℤ
  notes : String
  admin1 : String
  admin2 : String
deriving DecidableEq

structure IndicatorRow where
  event_date : Nat
  cell : String → ℚ

structure IndicatorTable where
  cols : List String
  rows : List IndicatorRow

/-- Raw indicator row before the load step, its date still a string. -/
structure RawIndicatorRow where
  event_date : String
  cell : String → ℚ

/-! ### Dataset loader (dash_afg.py lines 24-30) -/

def digitVal (c : Char) : Nat := c.toNat - '0'.toNat

def leapYear (y : Nat) : Bool := y % 4 == 0 && (y % 100 != 0 || y % 400 == 0)

def daysInMonth (y m : Nat) : Nat :=
  if m == 2 then (if leapYear y then 29 else 28)
  else if m == 4 || m == 6 || m == 9 || m == 11 then 30
  else 31

/-- Model of `pd.to_datetime(-, format='%Y-%m-%d')` on one field: a
zero-padded `YYYY-MM-DD` string standing for a valid calendar date. -/
def parseDate (s : String) : Option Nat :=
  match s.data with
  | [y1, y2, y3, y4, h1, m1, m2, h2, d1, d2] =>
    if h1 == '-' && h2 == '-' && (y1.isDigit && y2.isDigit && y3.isDigit && y4.isDigit)
        && (m1.isDigit && m2.isDigit) && (d1.isDigit && d2.isDigit) then
      let y := ((digitVal y1 * 10 + digitVal y2) * 10 + digitVal y3) * 10 + digitVal y4
      let m := digitVal m1 * 10 + digitVal m2
      let d := digitVal d1 * 10 + digitVal d2
      if 1 ≤ m && m ≤ 12 && 1 ≤ d && d ≤ daysInMonth y m then
        some (y * 10000 + m * 100 + d)
      else none
    else none
  | _ => none

inductive LoadError where
  | MalformedDateError
deriving DecidableEq

/-- Parse the date of every raw indicator row, in order; `none` as soon as
one row's date does not parse (the exception aborts the load). -/
def parseRows : List RawIndicatorRow → Option (List IndicatorRow)
  | [] => some []
  | r :: rs =>
    match parseDate r.event_date with
    | none => none
    | some d => (parseRows rs).map (fun t => ⟨d, r.cell⟩ :: t)

/-- The two chained filters of lines 26-27: strictly inside the window. -/
def windowFilter (ws we : Nat) (rows : List IndicatorRow) : List IndicatorRow :=
  rows.filter (fun r => ws < r.event_date && r.event_date < we)

/-- The module-level load: the indicator table's dates are parsed and the
table restricted to the window; the event log is read and kept as is —
its `event_date` column is never parsed. -/
def loadTables (ev : List EventRecord) (ind : List RawIndicatorRow)
    (cols : List String) (ws we : Nat) :
    Except LoadError (List EventRecord × IndicatorTable) :=
  match parseRows ind with
  | none => Except.error LoadError.MalformedDateError
  | some rows => Except.ok (ev, ⟨cols, windowFilter ws we rows⟩)

/-! ### Event cluster aggregator (`update_event_map`, lines 121-154) -/

structure EventCluster where
  latitude : ℚ
  longitude : ℚ
  event_type : String
  numerosity : Nat
  fatalities : ℤ
  actors : String
  events : String
  description : String

def strLE (a b : String) : Bool := a ≤ b

/-- Python `sorted` on strings: lexicographic by code point. -/
def sortStrings (l : List String) : List String := l.mergeSort strLE

def eventKey (e : EventRecord) : ℚ × ℚ × String := (e.latitude, e.longitude, e.event_type)

def groupFor (filtered : List EventRecord) (k : ℚ × ℚ × String) : List EventRecord :=
  filtered.filter (fun e => decide (eventKey e = k))

/-- One group of the `groupby(['latitude', 'longitude', 'event_type'])`
and its aggregations (lines 126-137): size, summed fatalities, the
sorted deduplicated joins, and the wrapped description. -/
def mkCluster (filtered : List EventRecord) (k : ℚ × ℚ × String) : EventCluster :=
  let g := groupFor filtered k
  { latitude := k.1
    longitude := k.2.1
    event_type := k.2.2
    numerosity := g.length
    fatalities := (g.map EventRecord.fatalities).sum
    actors := String.intercalate ", " (sortStrings (g.map EventRecord.actor1).dedup)
    events := String.intercalate ", " (sortStrings (g.map EventRecord.sub_event_type).dedup)
    description := add_br_to_description
      (String.intercalate "/" (sortStrings (g.map EventRecord.notes).dedup)) }

/-- Rows of the chosen date, grouped by (latitude, longitude, event_type):
one cluster per distinct key of the filtered selection. -/
def clusterEvents (ev : List EventRecord) (d : String) : List EventCluster :=
  let filtered := ev.filter (fun e => e.event_date == d)
  ((filtered.map eventKey).dedup).map (mkCluster filtered)

def clusterKey (c : EventCluster) : ℚ × ℚ × String := (c.latitude, c.longitude, c.event_type)

/-! ### Time-series annotator and summary table (`update_line_plot_and_table`,
lines 179-245) -/

/-- Model of `np.round(-, 0)`: round half to even, computed on the
numerator and denominator — `f` is the floor of `q` and `rem / q.den` the
fractional part, compared against one half. -/
def npRound (q : ℚ) : ℤ :=
  let f := q.num.fdiv q.den
  let rem := q.num - f * q.den
  if 2 * rem < (q.den : ℤ) then f
  else if (q.den : ℤ) < 2 * rem then f + 1
  else if f % 2 = 0 then f else f + 1

structure SummaryRow where
  label : String
  value : ℤ
deriving DecidableEq

/-- Columns excluded from the summary table (line 39). -/
def unavailable_table_cols : List String :=
  ["country", "month", "quarter", "week", "event_date", "capital_lat", "capital_lon",
   "ISO_3", "Legislative", "Local", "General", "Parliamentary", "Presidential",
   "Referendum", "holiday"]

/-- Column relabeling of lines 230-232: `_` becomes `: `, `/` becomes `, `,
and the moving-average column gets its full display name. -/
def relabelCol (col : String) : String :=
  if col == "violence index_moving_avg" then "Violence index 1 Year moving average"
  else ⟨pyReplaceChar '/' ", ".data (pyReplaceChar '_' ": ".data col.data)⟩

/-- Lookup of the unique row at a date: `data.loc[data['event_date'] == d]`
taking the first record, `none` when the frame is empty (`IndexError`). -/
def findDate (t : IndicatorTable) (d : Nat) : Option IndicatorRow :=
  t.rows.find? (fun r => r.event_date == d)

/-- The table rows before sorting (lines 226-236): for every column not
excluded, a relabeled row carrying the rounded value, kept unless the raw
value equals zero. -/
def summaryRowsUnsorted (t : IndicatorTable) (d : Nat) : Option (List SummaryRow) :=
  (findDate t d).map (fun r =>
    t.cols.filterMap (fun col =>
      if col ∈ unavailable_table_cols then none
      else if r.cell col = 0 then none
      else some ⟨relabelCol col, npRound (r.cell col)⟩))

def summaryLE (a b : SummaryRow) : Bool := b.value ≤ a.value

/-- Lines 222-243: the summary rows sorted by value, descending, with the
stable sort of Python's `sorted(..., reverse=True)`. -/
def buildSummary (t : IndicatorTable) (d : Nat) : Option (List SummaryRow) :=
  (summaryRowsUnsorted t d).map (fun l => l.mergeSort summaryLE)

structure SeriesResult where
  main : List (Nat × ℚ)
  overlays : List (List (Nat × ℚ))
  refMarker : Nat × ℚ
  histMarkers : List (Nat × ℚ)
deriving Inhabited

def lookupVal (t : IndicatorTable) (col : String) (d : Nat) : Option ℚ :=
  (findDate t d).map (fun r => r.cell col)

/-- The paired one-year moving-average overlay (lines 186-188). -/
def movingAvg (t : IndicatorTable) : List (Nat × ℚ) :=
  t.rows.map (fun r => (r.event_date, r.cell "violence index_moving_avg"))

/-- Lines 181-216: the main series, the moving-average overlay exactly for
the column `violence index`, the reference-date marker (the first fallible
lookup, line 192) and the four fixed historical markers, each plotted at a
display date near its lookup date. -/
def buildSeries (t : IndicatorTable) (col : String) (d : Nat) : Option SeriesResult :=
  let main := t.rows.map (fun r => (r.event_date, r.cell col))
  let overlays := if col == "violence index" then [movingAvg t] else []
  (lookupVal t col d).bind fun y =>
  (lookupVal t col 20200501).bind fun y1 =>
  (lookupVal t col 20210219).bind fun y2 =>
  (lookupVal t col 20210507).bind fun y3 =>
  (lookupVal t col 20210813).bind fun y4 =>
  some ⟨main, overlays, (d, y),
    [(20200429, y1), (20210214, y2), (20210501, y3), (20210815, y4)]⟩

/-! ### The callbacks as state transformers (spec section 5)

The two Dash callbacks read the module-level tables and build a fresh
derived structure; embedded as explicit state passing they return the
state unchanged. -/

structure AppState where
  event_data : List EventRecord
  data : IndicatorTable

def update_event_map (st : AppState) (selected_date : String) :
    List EventCluster × AppState :=
  (clusterEvents st.event_data selected_date, st)

def update_line_plot_and_table (st : AppState) (selected_column : String)
    (plot_date : Nat) : Option (SeriesResult × List SummaryRow) × AppState :=
  ((buildSeries st.data selected_column plot_date).bind fun s =>
    (buildSummary st.data plot_date).map fun rows => (s, rows), st)

/-! ### Concrete fixtures used by witnesses and counterexamples -/

/-- An event row whose date is not in `YYYY-MM-DD` form. -/
def malformedEvent : EventRecord :=
  ⟨"31/12/2021", 34, 69, "Battles", "Armed clash", "Taliban", 3, "note", "Kabul", "Kabul"⟩

def exCell : String → ℚ := fun _ => 5

def rawRow : RawIndicatorRow := ⟨"2021-08-15", exCell⟩

def loadedRow : IndicatorRow := ⟨20210815, exCell⟩

/-! ### Loader lemmas -/

theorem parseRows_eq_none (ind : List RawIndicatorRow) :
    parseRows ind = none ↔ ∃ r ∈ ind, parseDate r.event_date = none := by
  induction ind with
  | nil => simp [parseRows]
  | cons r rs ih =>
    cases h : parseDate r.event_date with
    | none => simp [parseRows, h]
    | some d => simp [parseRows, h, ih]

/-! ### The claims -/

/-- C2: the description text-wrap transform is claimed idempotent,
`wrap(wrap(x)) == wrap(x)`; the code applies the naive regex again, which
treats an inserted `<br>` as word characters and breaks a second time.
On 50 `a`s followed by `" b"` the first application yields `…a<br> b`
and the second `…a<br><br> b`. -/
theorem wrap_not_idempotent :
    add_br_to_description (add_br_to_description wrapProbe) ≠
      add_br_to_description wrapProbe ∧
    add_br_to_description wrapProbe = ⟨List.replicate 50 'a' ++ "<br> b".data⟩ ∧
    add_br_to_description (add_br_to_description wrapProbe) =
      ⟨List.replicate 50 'a' ++ "<br><br> b".data⟩ :=
  ⟨by decide, by decide, by decide⟩

/-- C5 counterexample: a malformed date in the per-event log does not make
the load fail — the event source's dates are never parsed, so the claim
that both sources are date-parsed is false. -/
theorem load_skips_event_dates :
    parseDate malformedEvent.event_date = none ∧
    loadTables [malformedEvent] [] [] 20200101 20220101 =
      Except.ok ([malformedEvent], ⟨[], []⟩) :=
  ⟨by decide, rfl⟩

/-- C5 amended: the loader parses the dates of the weekly indicator table
only, and fails with `MalformedDateError` exactly when some indicator
row's date cannot be parsed; the event log's dates never cause a load
failure (the error condition does not depend on `ev`). -/
theorem load_malformed_iff :
    ∀ (ev : List EventRecord) (ind : List RawIndicatorRow) (cols : List String)
      (ws we : Nat),
      loadTables ev ind cols ws we = Except.error LoadError.MalformedDateError ↔
        ∃ r ∈ ind, parseDate r.event_date = none := by
  intro ev ind cols ws we
  rw [← parseRows_eq_none ind]
  cases hp : parseRows ind with
  | none => simp [loadTables, hp]
  | some rows => simp [loadTables, hp]

/-- C8: after loading, the indicator table holds exactly the parsed rows
strictly inside the window; a row dated exactly `ws` or `we` is dropped. -/
theorem window_strict :
    ∀ (ev : List EventRecord) (ind : List RawIndicatorRow) (cols : List String)
      (ws we : Nat) (evT : List EventRecord) (tbl : IndicatorTable)
      (prows : List IndicatorRow),
      parseRows ind = some prows →
      loadTables ev ind cols ws we = Except.ok (evT, tbl) →
      ∀ r : IndicatorRow,
        (r ∈ tbl.rows ↔ r ∈ prows ∧ ws < r.event_date ∧ r.event_date < we) := by
  intro ev ind cols ws we evT tbl prows hp hl r
  simp only [loadTables, hp] at hl
  cases hl
  simp [windowFilter, List.mem_filter, and_assoc]

theorem window_strict_witness :
    loadedRow ∈ (IndicatorTable.mk ["violence index"] [loadedRow]).rows ↔
      loadedRow ∈ [loadedRow] ∧ 20200101 < loadedRow.event_date ∧
        loadedRow.event_date < 20220101 :=
  window_strict [] [rawRow] ["violence index"] 20200101 20220101 []
    (IndicatorTable.mk ["violence index"] [loadedRow]) [loadedRow] rfl rfl loadedRow

/-- C9: both callbacks are pure queries of the loaded tables and the
selection: they return the state unchanged, and each result depends only
on the table it reads, so two invocations with equal tables and equal
selections return equal results and no invocation mutates the tables. -/
theorem queries_pure :
    ∀ (s1 s2 : AppState) (sel col : String) (pd : Nat),
      (update_event_map s1 sel).2 = s1 ∧
      (update_line_plot_and_table s1 col pd).2 = s1 ∧
      (s1.event_data = s2.event_data →
        (update_event_map s1 sel).1 = (update_event_map s2 sel).1) ∧
      (s1.data = s2.data →
        (update_line_plot_and_table s1 col pd).1 =
          (update_line_plot_and_table s2 col pd).1) := by
  intro s1 s2 sel col pd
  refine ⟨rfl, rfl, fun h => ?_, fun h => ?_⟩ <;>
    simp [update_event_map, update_line_plot_and_table, h]

/-! ### Overlay series -/

def exTable6 : IndicatorTable :=
  ⟨["violence index"],
   [⟨20200501, exCell⟩, ⟨20210219, exCell⟩, ⟨20210507, exCell⟩, ⟨20210813, exCell⟩]⟩

theorem buildSeries_overlays {t : IndicatorTable} {col : String} {d : Nat}
    {res : SeriesResult} (h : buildSeries t col d = some res) :
    res.overlays = if col == "violence index" then [movingAvg t] else [] := by
  simp only [buildSeries, Option.bind_eq_some, Option.some.injEq] at h
  obtain ⟨y, -, y1, -, y2, -, y3, -, y4, -, hres⟩ := h
  subst hres
  rfl

/-- C6: a successful `buildSeries` emits the moving-average overlay exactly
when the selected column is the primary severity indicator
`violence index`, and no overlay otherwise. -/
theorem overlay_iff_primary :
    ∀ (t : IndicatorTable) (col : String) (d : Nat) (res : SeriesResult),
      buildSeries t col d = some res →
      (col = "violence index" → res.overlays = [movingAvg t]) ∧
      (col ≠ "violence index" → res.overlays = []) := by
  intro t col d res h
  have ho := buildSeries_overlays h
  constructor
  · intro hc
    subst hc
    simpa using ho
  · intro hc
    rw [ho]
    simp [hc]

theorem overlay_iff_primary_witness :
    ("violence index" = "violence index" →
      ((buildSeries exTable6 "violence index" 20210813).getD default).overlays =
        [movingAvg exTable6]) ∧
    ("violence index" ≠ "violence index" →
      ((buildSeries exTable6 "violence index" 20210813).getD default).overlays = []) :=
  overlay_iff_primary exTable6 "violence index" 20210813 _ rfl

/-! ### Date lookups and failure -/

def exTable7 : IndicatorTable := ⟨["violence index"], [⟨20210813, exCell⟩]⟩

/-- C7 counterexample: the reference date is present in the table, yet
`buildSeries` still fails, because the fixed historical marker lookup at
`2020-05-01` (line 198 of the code) finds no row. -/
theorem marker_absence_fails :
    (findDate exTable7 20210813).isSome = true ∧
    buildSeries exTable7 "violence index" 20210813 = none :=
  ⟨rfl, rfl⟩

/-- C7 amended: `buildSummary` fails exactly when the reference date is
absent from the indicator table; `buildSeries` fails exactly when the
reference date or any of the four fixed historical marker dates is
absent. -/
theorem lookup_failure_characterization :
    ∀ (t : IndicatorTable) (col : String) (d : Nat),
      ((buildSummary t d).isSome ↔ (findDate t d).isSome) ∧
      ((buildSeries t col d).isSome ↔
        ((findDate t d).isSome ∧ (findDate t 20200501).isSome ∧
          (findDate t 20210219).isSome ∧ (findDate t 20210507).isSome ∧
          (findDate t 20210813).isSome)) := by
  intro t col d
  constructor
  · simp [buildSummary, summaryRowsUnsorted]
  · cases h1 : findDate t d <;> cases h2 : findDate t 20200501 <;>
      cases h3 : findDate t 20210219 <;> cases h4 : findDate t 20210507 <;>
      cases h5 : findDate t 20210813 <;>
      simp [buildSeries, lookupVal, h1, h2, h3, h4, h5]

/-! ### Zero exclusion and rounding in the summary table -/

/-- The rational 2/5, given in normal form so that it evaluates. -/
def ratTwoFifths : ℚ := ⟨2, 5, by decide, by decide⟩

/-- The rational 1/3, given in normal form so that it evaluates. -/
def ratOneThird : ℚ := ⟨1, 3, by decide, by decide⟩

def exRow10 : IndicatorRow := ⟨20210815, fun _ => ratTwoFifths⟩

def exTable10 : IndicatorTable := ⟨["roundcol"], [exRow10]⟩

theorem buildSummary_exTable10 :
    buildSummary exTable10 20210815 = some [⟨"roundcol", 0⟩] := by
  have h : summaryRowsUnsorted exTable10 20210815 = some [⟨"roundcol", 0⟩] := by decide
  unfold buildSummary
  rw [h]
  simp

/-- C10: the zero-exclusion test compares the raw cell value with zero,
while the emitted row carries the value rounded to the nearest integer:
a raw value of 2/5 is not excluded and the returned row displays 0. -/
theorem raw_zero_test_rounded_display :
    exRow10.cell "roundcol" = ratTwoFifths ∧ ratTwoFifths ≠ 0 ∧
    npRound ratTwoFifths = 0 ∧
    buildSummary exTable10 20210815 = some [⟨"roundcol", 0⟩] :=
  ⟨rfl, by decide, by decide, buildSummary_exTable10⟩

def exRow3 : IndicatorRow := ⟨20210815, fun _ => ratOneThird⟩

def exTable3 : IndicatorTable := ⟨["b"], [exRow3]⟩

theorem buildSummary_exTable3 :
    buildSummary exTable3 20210815 = some [⟨"b", 0⟩] := by
  have h : summaryRowsUnsorted exTable3 20210815 = some [⟨"b", 0⟩] := by decide
  unfold buildSummary
  rw [h]
  simp

/-- C3 counterexample: a raw value of 1/3 is nonzero, so its column is not
excluded, yet the returned `SummaryRow` carries the rounded value 0 — the
claim that no returned row has value exactly 0 is false. -/
theorem summary_zero_value_returned :
    buildSummary exTable3 20210815 = some [⟨"b", 0⟩] ∧
    (⟨"b", 0⟩ : SummaryRow).value = 0 :=
  ⟨buildSummary_exTable3, rfl⟩

/-- C3 amended: every returned `SummaryRow` comes from a non-excluded
column whose raw value is nonzero (a column whose raw value equals zero is
excluded), and its displayed value is the rounding of that raw value —
which can itself be zero. -/
theorem zero_raw_excluded :
    ∀ (t : IndicatorTable) (d : Nat) (r : IndicatorRow) (res : List SummaryRow)
      (s : SummaryRow),
      findDate t d = some r →
      buildSummary t d = some res →
      s ∈ res →
      ∃ col, col ∈ t.cols ∧ col ∉ unavailable_table_cols ∧ r.cell col ≠ 0 ∧
        s = ⟨relabelCol col, npRound (r.cell col)⟩ := by
  intro t d r res s hf hb hs
  simp only [buildSummary, summaryRowsUnsorted, hf, Option.map_some',
    Option.some.injEq] at hb
  subst hb
  rw [List.mem_mergeSort, List.mem_filterMap] at hs
  obtain ⟨col, hcol, heq⟩ := hs
  refine ⟨col, hcol, ?_⟩
  by_cases h1 : col ∈ unavailable_table_cols
  · rw [if_pos h1] at heq
    simp at heq
  · rw [if_neg h1] at heq
    by_cases h2 : r.cell col = 0
    · rw [if_pos h2] at heq
      simp at heq
    · rw [if_neg h2] at heq
      injection heq with h3
      exact ⟨h1, h2, h3.symm⟩

theorem zero_raw_excluded_witness :
    ∃ col, col ∈ exTable3.cols ∧ col ∉ unavailable_table_cols ∧
      exRow3.cell col ≠ 0 ∧
      (⟨"b", 0⟩ : SummaryRow) = ⟨relabelCol col, npRound (exRow3.cell col)⟩ :=
  zero_raw_excluded exTable3 20210815 exRow3 [⟨"b", 0⟩] ⟨"b", 0⟩ rfl
    buildSummary_exTable3 (List.mem_singleton.mpr rfl)

/-- C4: the summary rows are sorted non-increasing by (rounded) value, and
the sort is stable: two rows in their original column order with equal
values keep that order in the result. -/
theorem summary_sorted_stable :
    ∀ (t : IndicatorTable) (d : Nat) (pre res : List SummaryRow),
      summaryRowsUnsorted t d = some pre →
      buildSummary t d = some res →
      List.Pairwise (fun a b : SummaryRow => b.value ≤ a.value) res ∧
      (∀ a b : SummaryRow, List.Sublist [a, b] pre → a.value = b.value →
        List.Sublist [a, b] res) := by
  intro t d pre res hp hb
  have hres : res = pre.mergeSort summaryLE := by
    simp only [buildSummary, hp, Option.map_some', Option.some.injEq] at hb
    exact hb.symm
  subst hres
  have htrans : ∀ a b c : SummaryRow, summaryLE a b → summaryLE b c → summaryLE a c := by
    intro a b c hab hbc
    simp only [summaryLE, decide_eq_true_eq] at *
    omega
  have htotal : ∀ a b : SummaryRow, summaryLE a b || summaryLE b a := by
    intro a b
    simp only [summaryLE, Bool.or_eq_true, decide_eq_true_eq]
    omega
  constructor
  · exact List.Pairwise.imp (fun h => by simpa [summaryLE] using h)
      (List.sorted_mergeSort htrans htotal pre)
  · intro a b hab he
    exact List.pair_sublist_mergeSort htrans htotal (by simp [summaryLE, he]) hab

theorem summary_sorted_stable_witness :
    List.Pairwise (fun a b : SummaryRow => b.value ≤ a.value)
      ((buildSummary exTable3 20210815).getD []) ∧
    (∀ a b : SummaryRow,
      List.Sublist [a, b] ((summaryRowsUnsorted exTable3 20210815).getD []) →
      a.value = b.value →
      List.Sublist [a, b] ((buildSummary exTable3 20210815).getD [])) :=
  summary_sorted_stable exTable3 20210815 _ _ rfl rfl

/-! ### Cluster partition -/

theorem sum_countP_dedup {K : Type} [DecidableEq K] (l : List K) :
    (l.dedup.map (fun k => l.countP (fun x => decide (x = k)))).sum = l.length :=
  List.sum_map_count_dedup_eq_length l

/-- C1: the clusters of a date partition the matching events — cluster
counts sum to the number of event records whose date equals the query
date exactly, and the grouping keys are pairwise distinct. -/
theorem cluster_partition :
    ∀ (ev : List EventRecord) (d : String),
      ((clusterEvents ev d).map EventCluster.numerosity).sum =
        (ev.filter (fun e => e.event_date == d)).length ∧
      ((clusterEvents ev d).map clusterKey).Nodup := by
  intro ev d
  simp only [clusterEvents]
  generalize ev.filter (fun e => e.event_date == d) = filtered
  constructor
  · rw [List.map_map]
    rw [← List.length_map filtered eventKey]
    rw [← sum_countP_dedup (filtered.map eventKey)]
    refine congrArg List.sum (List.map_congr_left ?_)
    intro k hk
    show (filtered.filter (fun e => decide (eventKey e = k))).length =
      List.countP (fun x => decide (x = k)) (filtered.map eventKey)
    rw [List.countP_map]
    exact (List.countP_eq_length_filter _ _).symm
  · rw [List.map_map]
    have hkeys : clusterKey ∘ mkCluster filtered = fun k => k := funext fun k => rfl
    rw [hkeys, List.map_id']
    exact List.nodup_dedup _

end AfgDemo
